import Mathlib

/-!
Verification of `scripts/generate-logos.py`: a utility that loads one source
logo image, emits six resized PNG copies into a `public` output directory and
deletes a legacy `favicon.ico` when present.

The script is embedded shallowly:
* a filesystem is a map from paths (lists of name components) to file data,
  plus a set of existing directories;
* a PIL image is a structure carrying width, height, mode string and a
  symbolic pixel-data term that records exactly which decode, convert and
  resize operations produced it;
* OS-level fallibility (a failing write, a failing unlink) is provided by an
  environment of oracles, and Python exceptions are modelled by an explicit
  result type that also carries the filesystem state at the point the
  exception escaped (writes are not rolled back by an exception).
-/

namespace LogoGen

/-- A filesystem path, as a list of name components. -/
abbrev Path := List String

/-- PIL resampling filters (the `Image.Resampling` enumeration). -/
inductive Resampling where
  | NEAREST
  | BOX
  | BILINEAR
  | HAMMING
  | BICUBIC
  | LANCZOS
  deriving DecidableEq, Repr

/-- Symbolic pixel contents: a term recording how the pixels were produced
from a decoded source raster. -/
inductive PixelData where
  | source ( id : Nat)
  | converted (d : PixelData) (mode : String)
  | resized (d : PixelData) (w h : Nat) (f : Resampling)
  deriving DecidableEq, Repr

/-- An in-memory PIL image: dimensions, mode string and pixel contents. -/
structure Image where
  width : Nat
  height : Nat
  mode : String
  data : PixelData
  deriving DecidableEq, Repr

/-- PIL `Image.convert`: a new image with the requested mode; the original is
not mutated. -/
def Image.convert (img : Image) (m : String) : Image :=
  { img with mode := m, data := .converted img.data m }

/-- PIL `Image.resize`: a new image with the requested dimensions, produced
with the given resampling filter; the original is not mutated. -/
def Image.resize (img : Image) (wh : Nat × Nat) (f : Resampling) : Image :=
  { width := wh.1, height := wh.2, mode := img.mode
    data := .resized img.data wh.1 wh.2 f }

/-- Contents of a file on disk: either an image encoded in some format
(decodable by `Image.open`), or an arbitrary non-image blob. -/
inductive FileData where
  | encoded (format : String) ( opt : Bool) (img : Image)
  | blob ( id : Nat)
  deriving DecidableEq, Repr

/-- The filesystem: file contents by path, and which directories exist. -/
structure FS where
  files : Path → Option FileData
  dirs : Path → Bool

/-- Write (or overwrite) one file. -/
def FS.writeFile (fs : FS) (p : Path) (d : FileData) : FS :=
  { fs with files := fun q => if q = p then some d else fs.files q }

/-- Remove one file (`Path.unlink`). -/
def FS.removeFile (fs : FS) (p : Path) : FS :=
  { fs with files := fun q => if q = p then none else fs.files q }

/-- `Path.mkdir(parents=True, exist_ok=True)`: marks the directory and every
ancestor as existing; total, never fails. -/
def FS.mkdirParents (fs : FS) (p : Path) : FS :=
  { fs with dirs := fun q => q.isPrefixOf p || fs.dirs q }

/-- Environment of OS-failure oracles: which paths fail to be written
(permissions, disk full), and whether the unlink of the legacy favicon
raises. -/
structure Env where
  saveFails : Path → Bool
  unlinkFails : Bool

/-- Exceptions the script can raise. -/
inductive Err where
  | decodeError
  | saveError (p : Path)
  | unlinkError
  deriving DecidableEq, Repr

/-- Progress messages printed by the script. -/
inductive Msg where
  | missing (p : Path)
  | loading (p : Path)
  | sourceInfo (w h : Nat) (mode : String)
  | generated (name : String) (size : Nat)
  | deletedIco
  | done (n : Nat) (dir : Path)
  deriving DecidableEq, Repr

/-- Outcome of running the script body: a normal return carrying the boolean
result, or an escaped exception. Both carry the filesystem at that point
(an exception does not roll writes back) and the printed log. -/
inductive PyResult where
  | ok (ret : Bool) (fs : FS) (log : List Msg)
  | raised (e : Err) (fs : FS) (log : List Msg)

/-- The filesystem state at the end of the run (normal or exceptional). -/
def PyResult.fs : PyResult → FS
  | .ok _ fs _ => fs
  | .raised _ fs _ => fs

/-- The printed log at the end of the run (normal or exceptional). -/
def PyResult.log : PyResult → List Msg
  | .ok _ _ log => log
  | .raised _ _ log => log

/-- The returned boolean, when the run returned normally. -/
def PyResult.ret : PyResult → Option Bool
  | .ok b _ _ => some b
  | .raised _ _ _ => none

/-- The escaped exception, when the run raised. -/
def PyResult.err : PyResult → Option Err
  | .ok _ _ _ => none
  | .raised e _ _ => some e

/-- One directory level up (`Path.parent`). -/
def parentDir (p : Path) : Path := p.dropLast

/-- `SOURCE_LOGO = Path(__file__).parent.parent / "logo.png"`, as a function
of the implementation file's path. -/
def SOURCE_LOGO (file : Path) : Path :=
  parentDir (parentDir file) ++ ["logo.png"]

/-- `PUBLIC_DIR = Path(__file__).parent.parent / "public"`. -/
def PUBLIC_DIR (file : Path) : Path :=
  parentDir (parentDir file) ++ ["public"]

/-- The fixed size table `SIZES` (an ordered mapping). -/
def SIZES : List (String × Nat) :=
  [("logo-32.png", 32),
   ("logo-64.png", 64),
   ("logo-128.png", 128),
   ("logo-192.png", 192),
   ("logo-512.png", 512),
   ("favicon.png", 32)]

/-- `Image.open`: decode the file at `p`; raises when the file is absent or
not a decodable image. -/
def imageOpen (fs : FS) (p : Path) : Except Err Image :=
  match fs.files p with
  | some (.encoded _ _ img) => .ok img
  | _ => .error .decodeError

/-- `resized.save(output_path, 'PNG', optimize=True)`: encode as PNG and
write; raises when the OS write fails. -/
def imageSave (env : Env) (fs : FS) (img : Image) (p : Path) (fmt : String)
    ( opt : Bool) : Except Err FS :=
  if env.saveFails p then .error (.saveError p)
  else .ok (fs.writeFile p (.encoded fmt opt img))

/-- The `for filename, size in SIZES.items()` loop: resize with LANCZOS, save
as optimized PNG, record the entry; a save failure aborts the loop with the
exception, the state written so far and the log so far. -/
def runSizes (env : Env) (dir : Path) (img : Image) :
    List (String × Nat) → FS → List Msg → List (String × Nat) →
    Except (Err × FS × List Msg) (FS × List Msg × List (String × Nat))
  | [], fs, log, gen => .ok (fs, log, gen)
  | (filename, size) :: rest, fs, log, gen =>
    let output_path := dir ++ [filename]
    let resized := img.resize (size, size) .LANCZOS
    match imageSave env fs resized output_path "PNG" true with
    | .error e => .error (e, fs, log)
    | .ok fs1 =>
      runSizes env dir img rest fs1
        (log ++ [.generated filename size]) (gen ++ [(filename, size)])

/-- `old_ico = PUBLIC_DIR / "favicon.ico"`, the legacy artifact. -/
def icoPath (file : Path) : Path := PUBLIC_DIR file ++ ["favicon.ico"]

/-- The tail of `generate_logos` after the size loop: `if old_ico.exists():
old_ico.unlink()` followed by the final report and `return True`. The unlink
is an OS call that may raise. -/
def afterLoop (env : Env) (file : Path) (fs2 : FS) (log3 : List Msg)
    (gen : List (String × Nat)) : PyResult :=
  if (fs2.files (icoPath file)).isSome then
    if env.unlinkFails then .raised .unlinkError fs2 log3
    else
      .ok true (fs2.removeFile (icoPath file))
        (log3 ++ [.deletedIco, .done gen.length (PUBLIC_DIR file)])
  else .ok true fs2 (log3 ++ [.done gen.length (PUBLIC_DIR file)])

/-- The script's `img` local after the one-time conversion step:
`if img.mode != 'RGBA': img = img.convert('RGBA')`. -/
def rgbaOf (img0 : Image) : Image :=
  if img0.mode ≠ "RGBA" then img0.convert "RGBA" else img0

/-- The log printed before the loop starts: the loading line and the
source-size line (printed after the conversion). -/
def openLog (file : Path) (img0 : Image) : List Msg :=
  [Msg.loading (SOURCE_LOGO file),
   .sourceInfo (rgbaOf img0).width (rgbaOf img0).height (rgbaOf img0).mode]

/-- The part of `generate_logos` after `Image.open` succeeded: the one-time
RGBA conversion, the size-report print, the size loop, then `afterLoop`. -/
def afterOpen (env : Env) (file : Path) (fs1 : FS) (img0 : Image) : PyResult :=
  match runSizes env (PUBLIC_DIR file) (rgbaOf img0) SIZES fs1
      (openLog file img0) [] with
  | .error (e, fs2, log3) => .raised e fs2 log3
  | .ok (fs2, log3, gen) => afterLoop env file fs2 log3 gen

/-- The body of `generate_logos()`, parameterised by the failure oracles, the
implementation file's path (fixing `SOURCE_LOGO` and `PUBLIC_DIR`) and the
initial filesystem: the existence check and early `return False`, then
`mkdir`, `Image.open` and the rest of the body. -/
def generate_logos (env : Env) (file : Path) (fs : FS) : PyResult :=
  if (fs.files (SOURCE_LOGO file)).isNone then
    .ok false fs [.missing (SOURCE_LOGO file)]
  else
    let fs1 := fs.mkdirParents (PUBLIC_DIR file)
    match imageOpen fs1 (SOURCE_LOGO file) with
    | .error e => .raised e fs1 [.loading (SOURCE_LOGO file)]
    | .ok img0 => afterOpen env file fs1 img0

/-- The `if __name__ == "__main__": generate_logos()` entry point: the return
value is discarded, so the interpreter exits 0 on normal termination and 1 on
an uncaught exception. -/
def pyMain (env : Env) (file : Path) (fs : FS) : Nat :=
  match generate_logos env file fs with
  | .ok _ _ _ => 0
  | .raised _ _ _ => 1

/-- The image content of one output file, as a function of the decoded source
image and that entry's edge length alone. -/
def outputImage (img0 : Image) (size : Nat) : Image :=
  (rgbaOf img0).resize (size, size) .LANCZOS

/-- The cumulative effect of the loop's writes. -/
def writeOutputs (dir : Path) (img : Image) (l : List (String × Nat))
    (fs : FS) : FS :=
  l.foldl
    (fun a e =>
      a.writeFile (dir ++ [e.1]) (.encoded "PNG" true (img.resize (e.2, e.2) .LANCZOS)))
    fs

/-- The filesystem after the loop has written all six outputs. -/
def loopFS (file : Path) (img0 : Image) (fs : FS) : FS :=
  writeOutputs (PUBLIC_DIR file) (rgbaOf img0) SIZES
    (fs.mkdirParents (PUBLIC_DIR file))

/-- The log printed by a run that got through the whole loop. -/
def successLog (file : Path) (img0 : Image) : List Msg :=
  openLog file img0 ++ SIZES.map (fun e => Msg.generated e.1 e.2)

theorem mkdirParents_files (fs : FS) (p : Path) :
    (fs.mkdirParents p).files = fs.files := rfl

theorem writeFile_files_self (fs : FS) (p : Path) (d : FileData) :
    (fs.writeFile p d).files p = some d := by
  simp [FS.writeFile]

theorem writeFile_files_ne (fs : FS) (p q : Path) (d : FileData)
    (h : q ≠ p) : (fs.writeFile p d).files q = fs.files q := by
  simp [FS.writeFile, h]

theorem removeFile_files_self (fs : FS) (p : Path) :
    (fs.removeFile p).files p = none := by
  simp [FS.removeFile]

theorem removeFile_files_ne (fs : FS) (p q : Path) (h : q ≠ p) :
    (fs.removeFile p).files q = fs.files q := by
  simp [FS.removeFile, h]

theorem append_singleton_ne (dir : Path) (a b : String) (h : a ≠ b) :
    dir ++ [a] ≠ dir ++ [b] := by
  intro he
  exact h (by simpa using List.append_cancel_left he)

theorem writeOutputs_nil (dir : Path) (img : Image) (fs : FS) :
    writeOutputs dir img [] fs = fs := rfl

theorem writeOutputs_cons (dir : Path) (img : Image) (e : String × Nat)
    (rest : List (String × Nat)) (fs : FS) :
    writeOutputs dir img (e :: rest) fs =
      writeOutputs dir img rest
        (fs.writeFile (dir ++ [e.1])
          (.encoded "PNG" true (img.resize (e.2, e.2) .LANCZOS))) := rfl

theorem writeOutputs_files_ne (dir : Path) (img : Image)
    (l : List (String × Nat)) (fs : FS) (q : Path)
    (h : ∀ e ∈ l, q ≠ dir ++ [e.1]) :
    (writeOutputs dir img l fs).files q = fs.files q := by
  induction l generalizing fs with
  | nil => rfl
  | cons e rest ih =>
    rw [writeOutputs_cons, ih _ (fun x hx => h x (List.mem_cons_of_mem e hx)),
      writeFile_files_ne _ _ _ _ (h e (List.mem_cons_self e rest))]

theorem writeOutputs_files_mem (dir : Path) (img : Image)
    (l : List (String × Nat)) (fs : FS) (name : String) (size : Nat)
    (hmem : (name, size) ∈ l) (hnd : (l.map Prod.fst).Nodup) :
    (writeOutputs dir img l fs).files (dir ++ [name]) =
      some (.encoded "PNG" true (img.resize (size, size) .LANCZOS)) := by
  induction l generalizing fs with
  | nil => cases hmem
  | cons e rest ih =>
    rw [writeOutputs_cons]
    rw [List.map_cons, List.nodup_cons] at hnd
    rcases List.mem_cons.mp hmem with heq | hmem2
    · subst heq
      rw [writeOutputs_files_ne]
      · exact writeFile_files_self _ _ _
      · intro x hx
        apply append_singleton_ne
        intro hxx
        apply hnd.1
        show name ∈ List.map Prod.fst rest
        rw [hxx]
        exact List.mem_map_of_mem Prod.fst hx
    · exact ih _ hmem2 hnd.2

theorem runSizes_ok (env : Env) (dir : Path) (img : Image)
    (l : List (String × Nat)) (fs : FS) (log : List Msg)
    (gen : List (String × Nat)) (hsave : ∀ p, env.saveFails p = false) :
    runSizes env dir img l fs log gen =
      .ok (writeOutputs dir img l fs,
           log ++ l.map (fun e => .generated e.1 e.2), gen ++ l) := by
  induction l generalizing fs log gen with
  | nil => simp [runSizes, writeOutputs]
  | cons e rest ih =>
    cases e with
    | mk filename size =>
      rw [writeOutputs_cons]
      simp [runSizes, imageSave, hsave, ih]

/-- Under a decodable source and no write failures, the run reaches the
legacy-favicon step with the fully written filesystem and log. -/
theorem generate_logos_success (env : Env) (file : Path) (fs : FS)
    (fmt : String) ( opt : Bool) (img0 : Image)
    (hs : fs.files (SOURCE_LOGO file) = some (.encoded fmt opt img0))
    (hsave : ∀ p, env.saveFails p = false) :
    generate_logos env file fs =
      afterLoop env file (loopFS file img0 fs) (successLog file img0) SIZES := by
  unfold generate_logos
  simp only [hs, Option.isNone_some, Bool.false_eq_true, if_false, imageOpen,
    mkdirParents_files]
  simp only [afterOpen]
  rw [runSizes_ok _ _ _ _ _ _ _ hsave]
  simp [loopFS, successLog]

theorem sizes_fst_ne_ico : ∀ e ∈ SIZES, "favicon.ico" ≠ e.1 := by decide

theorem sizes_nodup : (SIZES.map Prod.fst).Nodup := by decide

theorem loopFS_files_ico (file : Path) (img0 : Image) (fs : FS) :
    (loopFS file img0 fs).files (icoPath file) = fs.files (icoPath file) := by
  unfold loopFS icoPath
  rw [writeOutputs_files_ne _ _ _ _ _
    (fun e he => append_singleton_ne _ _ _ (sizes_fst_ne_ico e he))]
  rfl

theorem output_ne_ico (file : Path) (e : String × Nat) (he : e ∈ SIZES) :
    PUBLIC_DIR file ++ [e.1] ≠ icoPath file := by
  unfold icoPath
  exact append_singleton_ne _ _ _ (fun h => sizes_fst_ne_ico e he h.symm)

theorem source_ne_under_public (file : Path) (name : String) :
    SOURCE_LOGO file ≠ PUBLIC_DIR file ++ [name] := by
  unfold SOURCE_LOGO PUBLIC_DIR
  intro h
  have hl := congrArg List.length h
  simp [List.length_append] at hl

/-- Any path that is neither one of the six outputs nor the legacy favicon is
untouched by a fully successful loop pass, whatever the favicon branch does. -/
theorem run_fs_untouched (env : Env) (file : Path) (fs : FS) (fmt : String)
    ( opt : Bool) (img0 : Image) (q : Path)
    (hs : fs.files (SOURCE_LOGO file) = some (.encoded fmt opt img0))
    (hsave : ∀ p, env.saveFails p = false)
    (hq1 : ∀ e ∈ SIZES, q ≠ PUBLIC_DIR file ++ [e.1])
    (hq2 : q ≠ icoPath file) :
    (generate_logos env file fs).fs.files q = fs.files q := by
  rw [generate_logos_success env file fs fmt opt img0 hs hsave]
  have hfs2 : (loopFS file img0 fs).files q = fs.files q := by
    unfold loopFS
    rw [writeOutputs_files_ne _ _ _ _ _ hq1]
    rfl
  unfold afterLoop
  cases hico : ((loopFS file img0 fs).files (icoPath file)).isSome with
  | false => simpa [PyResult.fs] using hfs2
  | true =>
    cases hu : env.unlinkFails with
    | true => simpa [PyResult.fs] using hfs2
    | false =>
      simp only [if_true, Bool.false_eq_true, if_false, PyResult.fs]
      rw [removeFile_files_ne _ _ _ hq2]
      exact hfs2

/-- The state of the six output files after a run in which the source decoded
and every write succeeded (whatever the favicon branch then does). -/
theorem run_output_files (env : Env) (file : Path) (fs : FS) (fmt : String)
    ( opt : Bool) (img0 : Image)
    (hs : fs.files (SOURCE_LOGO file) = some (.encoded fmt opt img0))
    (hsave : ∀ p, env.saveFails p = false) :
    ∀ e ∈ SIZES,
      (generate_logos env file fs).fs.files (PUBLIC_DIR file ++ [e.1]) =
        some (.encoded "PNG" true (outputImage img0 e.2)) := by
  intro e he
  rw [generate_logos_success env file fs fmt opt img0 hs hsave]
  have hlook : (loopFS file img0 fs).files (PUBLIC_DIR file ++ [e.1]) =
      some (.encoded "PNG" true (outputImage img0 e.2)) := by
    unfold loopFS
    exact writeOutputs_files_mem _ _ SIZES _ e.1 e.2 (by simpa using he)
      sizes_nodup
  unfold afterLoop
  cases hico : ((loopFS file img0 fs).files (icoPath file)).isSome with
  | false => simpa [PyResult.fs] using hlook
  | true =>
    cases hu : env.unlinkFails with
    | true => simpa [PyResult.fs] using hlook
    | false =>
      simp only [if_true, Bool.false_eq_true, if_false, PyResult.fs]
      rw [removeFile_files_ne _ _ _ (output_ne_ico file e he)]
      exact hlook

/-- A fully successful run (no write failure, unlink does not fail) returns
`True`. -/
theorem run_ret_true (env : Env) (file : Path) (fs : FS) (fmt : String)
    ( opt : Bool) (img0 : Image)
    (hs : fs.files (SOURCE_LOGO file) = some (.encoded fmt opt img0))
    (hsave : ∀ p, env.saveFails p = false)
    (hunl : env.unlinkFails = false) :
    (generate_logos env file fs).ret = some true := by
  rw [generate_logos_success env file fs fmt opt img0 hs hsave]
  unfold afterLoop
  cases hico : ((loopFS file img0 fs).files (icoPath file)).isSome <;>
    simp [hunl, PyResult.ret]

theorem afterLoop_ret_ne_false (env : Env) (file : Path) (fs2 : FS)
    (log3 : List Msg) (gen : List (String × Nat)) :
    (afterLoop env file fs2 log3 gen).ret ≠ some false := by
  unfold afterLoop
  cases hico : (fs2.files (icoPath file)).isSome <;>
    cases hu : env.unlinkFails <;> simp [PyResult.ret]

theorem afterOpen_ret_ne_false (env : Env) (file : Path) (fs1 : FS)
    (img0 : Image) : (afterOpen env file fs1 img0).ret ≠ some false := by
  unfold afterOpen
  rcases hr : runSizes env (PUBLIC_DIR file) (rgbaOf img0) SIZES fs1
      (openLog file img0) [] with ⟨e, fs2, log3⟩ | ⟨fs2, log3, gen⟩
  · simp [PyResult.ret]
  · exact afterLoop_ret_ne_false env file fs2 log3 gen

/-- `generate_logos` returns `False` exactly when the source file is absent. -/
theorem ret_false_iff_missing (env : Env) (file : Path) (fs : FS) :
    (generate_logos env file fs).ret = some false ↔
      fs.files (SOURCE_LOGO file) = none := by
  constructor
  · intro h
    cases hsrc : fs.files (SOURCE_LOGO file) with
    | none => rfl
    | some d =>
      exfalso
      unfold generate_logos at h
      simp only [hsrc, Option.isNone_some, Bool.false_eq_true, if_false,
        imageOpen, mkdirParents_files] at h
      cases d with
      | blob i => simp [PyResult.ret] at h
      | encoded fmt opt2 img0 => exact afterOpen_ret_ne_false env file _ img0 h
  · intro h
    simp [generate_logos, h, PyResult.ret]

/-- When the very first write of the loop fails, the run raises that save
error with only the directory creation having happened. -/
theorem run_first_save_fails (env : Env) (file : Path) (fs : FS)
    (fmt : String) ( opt : Bool) (img0 : Image)
    (hs : fs.files (SOURCE_LOGO file) = some (.encoded fmt opt img0))
    (hfail : env.saveFails (PUBLIC_DIR file ++ ["logo-32.png"]) = true) :
    generate_logos env file fs =
      .raised (.saveError (PUBLIC_DIR file ++ ["logo-32.png"]))
        (fs.mkdirParents (PUBLIC_DIR file)) (openLog file img0) := by
  unfold generate_logos
  simp only [hs, Option.isNone_some, Bool.false_eq_true, if_false, imageOpen,
    mkdirParents_files]
  unfold afterOpen
  simp [SIZES, runSizes, imageSave, hfail]

theorem generated_mem_successLog (file : Path) (img0 : Image)
    (e : String × Nat) (he : e ∈ SIZES) :
    Msg.generated e.1 e.2 ∈ successLog file img0 := by
  unfold successLog
  exact List.mem_append_right _ (List.mem_map_of_mem _ he)

/-- A fully successful run prints the whole loop log, plus a tail for the
favicon step and the final report. -/
theorem run_log_success (env : Env) (file : Path) (fs : FS) (fmt : String)
    ( opt : Bool) (img0 : Image)
    (hs : fs.files (SOURCE_LOGO file) = some (.encoded fmt opt img0))
    (hsave : ∀ p, env.saveFails p = false)
    (hunl : env.unlinkFails = false) :
    ∃ tail, (generate_logos env file fs).log =
      successLog file img0 ++ tail := by
  rw [generate_logos_success env file fs fmt opt img0 hs hsave]
  unfold afterLoop
  cases hico : ((loopFS file img0 fs).files (icoPath file)).isSome with
  | true =>
    refine ⟨[.deletedIco, .done SIZES.length (PUBLIC_DIR file)], ?_⟩
    simp [hunl, PyResult.log]
  | false =>
    refine ⟨[.done SIZES.length (PUBLIC_DIR file)], ?_⟩
    simp [hunl, PyResult.log]

/-! Concrete fixtures used by the witness theorems. -/

/-- A concrete location for the implementation file. -/
def fileW : Path := ["repo", "scripts", "generate-logos.py"]

/-- A concrete 2048x2048 RGBA source image. -/
def imgW : Image := ⟨2048, 2048, "RGBA", .source 0⟩

/-- A concrete 2048x2048 source image without an alpha channel. -/
def imgRGB : Image := ⟨2048, 2048, "RGB", .source 1⟩

/-- An environment in which every OS call succeeds. -/
def envOk : Env := ⟨fun _ => false, false⟩

/-- An environment in which only the unlink of the legacy favicon fails. -/
def envUnl : Env := ⟨fun _ => false, true⟩

/-- An environment in which writing the first output fails. -/
def envFail32 : Env := ⟨fun p => p == ["repo", "public", "logo-32.png"], false⟩

/-- A filesystem holding only the source logo. -/
def fsSrc : FS :=
  ⟨fun q => if q = ["repo", "logo.png"]
      then some (.encoded "PNG" true imgW) else none,
   fun _ => false⟩

/-- A filesystem holding the source logo and a legacy `favicon.ico`. -/
def fsSrcIco : FS :=
  ⟨fun q => if q = ["repo", "logo.png"]
      then some (.encoded "PNG" true imgW)
      else if q = ["repo", "public", "favicon.ico"]
      then some (.blob 7) else none,
   fun _ => false⟩

/-- A filesystem whose source logo has no alpha channel. -/
def fsRGB : FS :=
  ⟨fun q => if q = ["repo", "logo.png"]
      then some (.encoded "JPEG" false imgRGB) else none,
   fun _ => false⟩

/-- An empty filesystem: the source logo is absent. -/
def fsEmpty : FS := ⟨fun _ => none, fun _ => false⟩

/-! The claims. -/

/-- C1: for every valid decodable square source image, each of the six fixed
table entries yields an output file that is a PNG-encoded square image of
exactly that edge length in both dimensions, in RGBA mode (4 channels),
produced with the LANCZOS resampling filter (not nearest-neighbor or
bilinear). -/
theorem c1_six_outputs (env : Env) (file : Path) (fs : FS) (fmt : String)
    ( opt : Bool) (img0 : Image)
    (hs : fs.files (SOURCE_LOGO file) = some (.encoded fmt opt img0))
    (hsq : img0.width = img0.height)
    (hsave : ∀ p, env.saveFails p = false) :
    ∀ e ∈ SIZES,
      (generate_logos env file fs).fs.files (PUBLIC_DIR file ++ [e.1]) =
        some (.encoded "PNG" true (outputImage img0 e.2)) ∧
      (outputImage img0 e.2).width = e.2 ∧
      (outputImage img0 e.2).height = e.2 ∧
      (outputImage img0 e.2).mode = "RGBA" ∧
      (outputImage img0 e.2).data =
        .resized (rgbaOf img0).data e.2 e.2 .LANCZOS := by
  intro e he
  refine ⟨run_output_files env file fs fmt opt img0 hs hsave e he,
    rfl, rfl, ?_, rfl⟩
  unfold outputImage rgbaOf Image.resize Image.convert
  by_cases h : img0.mode = "RGBA" <;> simp [h]

theorem c1_six_outputs_witness :
    (generate_logos envOk fileW fsSrc).fs.files
        ["repo", "public", "logo-512.png"] =
      some (.encoded "PNG" true (outputImage imgW 512)) ∧
    (outputImage imgW 512).width = 512 ∧
    (outputImage imgW 512).height = 512 ∧
    (outputImage imgW 512).mode = "RGBA" ∧
    (outputImage imgW 512).data =
      .resized (rgbaOf imgW).data 512 512 .LANCZOS := by
  exact c1_six_outputs envOk fileW fsSrc "PNG" true imgW rfl rfl
    (fun p => rfl) ("logo-512.png", 512) (by decide)

/-- C2: when the source file is absent, the run reports the missing path,
returns `False`, and leaves the filesystem unchanged. -/
theorem c2_missing_source (env : Env) (file : Path) (fs : FS)
    (h : fs.files (SOURCE_LOGO file) = none) :
    generate_logos env file fs =
      .ok false fs [.missing (SOURCE_LOGO file)] := by
  simp [generate_logos, h]

theorem c2_missing_source_witness :
    generate_logos envOk fileW fsEmpty =
      .ok false fsEmpty [.missing ["repo", "logo.png"]] := by
  exact c2_missing_source envOk fileW fsEmpty rfl

/-- C3: `generate_logos` returns `False` exactly when the source is missing;
with a decodable source and no OS failures it returns `True` having printed a
generated line for all six entries; and a mid-loop write failure propagates
as an exception rather than being caught. -/
theorem c3_result_discipline (env : Env) (file : Path) (fs : FS) :
    ((generate_logos env file fs).ret = some false ↔
        fs.files (SOURCE_LOGO file) = none) ∧
    (∀ (fmt : String) ( opt : Bool) (img0 : Image),
        fs.files (SOURCE_LOGO file) = some (.encoded fmt opt img0) →
        (∀ p, env.saveFails p = false) → env.unlinkFails = false →
        (generate_logos env file fs).ret = some true ∧
        ∀ e ∈ SIZES,
          Msg.generated e.1 e.2 ∈ (generate_logos env file fs).log) ∧
    (∀ (fmt : String) ( opt : Bool) (img0 : Image),
        fs.files (SOURCE_LOGO file) = some (.encoded fmt opt img0) →
        env.saveFails (PUBLIC_DIR file ++ ["logo-32.png"]) = true →
        (generate_logos env file fs).err =
          some (.saveError (PUBLIC_DIR file ++ ["logo-32.png"]))) := by
  refine ⟨ret_false_iff_missing env file fs, ?_, ?_⟩
  · intro fmt opt img0 hs hsave hunl
    refine ⟨run_ret_true env file fs fmt opt img0 hs hsave hunl, ?_⟩
    intro e he
    obtain ⟨tail, hlog⟩ :=
      run_log_success env file fs fmt opt img0 hs hsave hunl
    rw [hlog]
    exact List.mem_append_left _ (generated_mem_successLog file img0 e he)
  · intro fmt opt img0 hs hfail
    rw [run_first_save_fails env file fs fmt opt img0 hs hfail]
    rfl

theorem c3_result_discipline_witness :
    (generate_logos envOk fileW fsSrc).ret = some true ∧
    (generate_logos envFail32 fileW fsSrc).err =
      some (.saveError ["repo", "public", "logo-32.png"]) := by
  refine ⟨((c3_result_discipline envOk fileW fsSrc).2.1 "PNG" true imgW rfl
    (fun p => rfl) rfl).1, ?_⟩
  exact (c3_result_discipline envFail32 fileW fsSrc).2.2 "PNG" true imgW rfl
    (by decide)

/-- C4: the decoded image is converted to RGBA before any resize whenever its
mode lacks alpha, so every one of the six outputs is in RGBA mode whatever
the source mode was; for a non-RGBA source the output term shows the
conversion strictly inside (before) the resize. -/
theorem c4_alpha_conversion (env : Env) (file : Path) (fs : FS)
    (fmt : String) ( opt : Bool) (img0 : Image)
    (hs : fs.files (SOURCE_LOGO file) = some (.encoded fmt opt img0))
    (hsave : ∀ p, env.saveFails p = false) :
    (∀ e ∈ SIZES,
      (generate_logos env file fs).fs.files (PUBLIC_DIR file ++ [e.1]) =
        some (.encoded "PNG" true (outputImage img0 e.2)) ∧
      (outputImage img0 e.2).mode = "RGBA") ∧
    (img0.mode ≠ "RGBA" → ∀ e ∈ SIZES,
      outputImage img0 e.2 =
        ⟨e.2, e.2, "RGBA",
         .resized (.converted img0.data "RGBA") e.2 e.2 .LANCZOS⟩) := by
  constructor
  · intro e he
    refine ⟨run_output_files env file fs fmt opt img0 hs hsave e he, ?_⟩
    unfold outputImage rgbaOf Image.resize Image.convert
    by_cases h : img0.mode = "RGBA" <;> simp [h]
  · intro hm e _
    unfold outputImage rgbaOf Image.resize Image.convert
    simp [hm]

theorem c4_alpha_conversion_witness :
    (generate_logos envOk fileW fsRGB).fs.files
        ["repo", "public", "favicon.png"] =
      some (.encoded "PNG" true (outputImage imgRGB 32)) ∧
    outputImage imgRGB 32 =
      ⟨32, 32, "RGBA",
       .resized (.converted imgRGB.data "RGBA") 32 32 .LANCZOS⟩ := by
  have h := c4_alpha_conversion envOk fileW fsRGB "JPEG" false imgRGB rfl
    (fun p => rfl)
  exact ⟨(h.1 ("favicon.png", 32) (by decide)).1,
    h.2 (by decide) ("favicon.png", 32) (by decide)⟩

/-- C5: the legacy `favicon.ico` is checked and deleted only after all six
sizes are processed: a fully successful run returns `True` and leaves no
`favicon.ico` whether or not it existed before, while a run whose first write
fails leaves the legacy file exactly as it was. -/
theorem c5_legacy_favicon (env : Env) (file : Path) (fs : FS)
    (fmt : String) ( opt : Bool) (img0 : Image)
    (hs : fs.files (SOURCE_LOGO file) = some (.encoded fmt opt img0)) :
    ((∀ p, env.saveFails p = false) → env.unlinkFails = false →
      (generate_logos env file fs).ret = some true ∧
      (generate_logos env file fs).fs.files (icoPath file) = none) ∧
    (env.saveFails (PUBLIC_DIR file ++ ["logo-32.png"]) = true →
      (generate_logos env file fs).ret = none ∧
      (generate_logos env file fs).fs.files (icoPath file) =
        fs.files (icoPath file)) := by
  constructor
  · intro hsave hunl
    refine ⟨run_ret_true env file fs fmt opt img0 hs hsave hunl, ?_⟩
    rw [generate_logos_success env file fs fmt opt img0 hs hsave]
    unfold afterLoop
    cases hval : (loopFS file img0 fs).files (icoPath file) with
    | none => simpa [PyResult.fs] using hval
    | some d => simp [hunl, PyResult.fs, removeFile_files_self]
  · intro hfail
    rw [run_first_save_fails env file fs fmt opt img0 hs hfail]
    exact ⟨rfl, rfl⟩

theorem c5_legacy_favicon_witness :
    (generate_logos envOk fileW fsSrcIco).ret = some true ∧
    (generate_logos envOk fileW fsSrcIco).fs.files
      ["repo", "public", "favicon.ico"] = none := by
  exact (c5_legacy_favicon envOk fileW fsSrcIco "PNG" true imgW rfl).1
    (fun p => rfl) rfl

/-- C6 as stated is false: a missing source makes `generate_logos` return
`False`, yet the process still exits 0, because the top-level call's result
is discarded. -/
theorem c6_counterexample :
    (generate_logos envOk fileW fsEmpty).ret = some false ∧
    pyMain envOk fileW fsEmpty = 0 := ⟨rfl, rfl⟩

/-- C6 (amended): the exit status does not reflect the boolean result: the
process exits 0 whenever `generate_logos` returns normally (whether `True`
or `False`) and 1 exactly when an exception escapes. -/
theorem c6_exit_status (env : Env) (file : Path) (fs : FS) :
    (pyMain env file fs = 0 ↔ (generate_logos env file fs).err = none) ∧
    (pyMain env file fs = 1 ↔ (generate_logos env file fs).err ≠ none) := by
  unfold pyMain
  cases generate_logos env file fs <;> simp [PyResult.err]

/-- C7 as stated is false: when the unlink of an existing legacy
`favicon.ico` raises, the exception escapes `generate_logos`, which therefore
does not return `True`. -/
theorem c7_counterexample :
    (generate_logos envUnl fileW fsSrcIco).err = some .unlinkError ∧
    (generate_logos envUnl fileW fsSrcIco).ret ≠ some true := by
  exact ⟨by decide, by decide⟩

/-- C7 (amended): a failing unlink of the legacy `favicon.ico` is fatal: the
run raises instead of returning `True`, although all six outputs have already
been written by then. -/
theorem c7_unlink_failure_fatal (env : Env) (file : Path) (fs : FS)
    (fmt : String) ( opt : Bool) (img0 : Image) (d : FileData)
    (hs : fs.files (SOURCE_LOGO file) = some (.encoded fmt opt img0))
    (hsave : ∀ p, env.saveFails p = false)
    (hico : fs.files (icoPath file) = some d)
    (hunl : env.unlinkFails = true) :
    generate_logos env file fs =
      .raised .unlinkError (loopFS file img0 fs) (successLog file img0) ∧
    ∀ e ∈ SIZES,
      (generate_logos env file fs).fs.files (PUBLIC_DIR file ++ [e.1]) =
        some (.encoded "PNG" true (outputImage img0 e.2)) := by
  refine ⟨?_, run_output_files env file fs fmt opt img0 hs hsave⟩
  rw [generate_logos_success env file fs fmt opt img0 hs hsave]
  unfold afterLoop
  rw [loopFS_files_ico, hico]
  simp [hunl]

theorem c7_unlink_failure_fatal_witness :
    generate_logos envUnl fileW fsSrcIco =
      .raised .unlinkError (loopFS fileW imgW fsSrcIco)
        (successLog fileW imgW) := by
  exact (c7_unlink_failure_fatal envUnl fileW fsSrcIco "PNG" true imgW
    (.blob 7) rfl (fun p => rfl) rfl rfl).1

/-- Modelled from the spec's words for comparison with the code: the source
sits under the anchor two directory levels above the implementation file. -/
def specSourcePath (file : Path) : Path :=
  file.take (file.length - 2) ++ ["logo.png"]

/-- Modelled from the spec's words for comparison with the code: the output
directory is the `public` subdirectory one level above the implementation's
own directory. -/
def specOutputDir (file : Path) : Path :=
  (parentDir file).take ((parentDir file).length - 1) ++ ["public"]

/-- C8: the code's path resolution coincides with the spec's description:
`SOURCE_LOGO` is `logo.png` under the anchor two levels above the
implementation file, and the output directory is `public` one level above
the implementation's directory. -/
theorem c8_path_resolution (file : Path) :
    SOURCE_LOGO file = specSourcePath file ∧
    PUBLIC_DIR file = specOutputDir file := by
  have key : parentDir (parentDir file) = file.take (file.length - 2) := by
    simp only [parentDir, List.dropLast_eq_take, List.take_take,
      List.length_take]
    congr 1
    omega
  constructor
  · unfold SOURCE_LOGO specSourcePath
    rw [key]
  · show parentDir (parentDir file) ++ ["public"] = _
    unfold specOutputDir
    rw [show parentDir (parentDir file) = (parentDir file).take
      ((parentDir file).length - 1) from List.dropLast_eq_take _]

/-- C9: running the generator twice is idempotent: the second run also
returns `True`, each of the six outputs after the second run equals the file
the first run wrote (overwritten without error), and re-creating the output
directory is a no-op when it already exists. -/
theorem c9_idempotent (env : Env) (file : Path) (fs : FS) (fmt : String)
    ( opt : Bool) (img0 : Image)
    (hs : fs.files (SOURCE_LOGO file) = some (.encoded fmt opt img0))
    (hsave : ∀ p, env.saveFails p = false)
    (hunl : env.unlinkFails = false) :
    (generate_logos env file (generate_logos env file fs).fs).ret =
      some true ∧
    (∀ e ∈ SIZES,
      (generate_logos env file (generate_logos env file fs).fs).fs.files
          (PUBLIC_DIR file ++ [e.1]) =
        (generate_logos env file fs).fs.files (PUBLIC_DIR file ++ [e.1])) ∧
    (∀ p q, ((fs.mkdirParents p).mkdirParents p).dirs q =
      (fs.mkdirParents p).dirs q) := by
  have hs1 : (generate_logos env file fs).fs.files (SOURCE_LOGO file) =
      some (.encoded fmt opt img0) := by
    rw [run_fs_untouched env file fs fmt opt img0 (SOURCE_LOGO file) hs hsave
      (fun e _ => source_ne_under_public file e.1)
      (source_ne_under_public file "favicon.ico")]
    exact hs
  refine ⟨run_ret_true env file _ fmt opt img0 hs1 hsave hunl, ?_, ?_⟩
  · intro e he
    rw [run_output_files env file _ fmt opt img0 hs1 hsave e he,
      run_output_files env file fs fmt opt img0 hs hsave e he]
  · intro p q
    unfold FS.mkdirParents
    cases h : List.isPrefixOf q p <;> simp [h]

theorem c9_idempotent_witness :
    (generate_logos envOk fileW (generate_logos envOk fileW fsSrc).fs).ret =
      some true := by
  exact (c9_idempotent envOk fileW fsSrc "PNG" true imgW rfl
    (fun p => rfl) rfl).1

/-- C10: the decoded source is never mutated after the one-time conversion:
every output file's content is `outputImage img0 size`, a function of the
decoded source image and that entry's edge length alone, and each is a
resize of the same converted original, so no output depends on the table
order or on another entry. -/
theorem c10_outputs_from_source_only (env : Env) (file : Path) (fs : FS)
    (fmt : String) ( opt : Bool) (img0 : Image)
    (hs : fs.files (SOURCE_LOGO file) = some (.encoded fmt opt img0))
    (hsave : ∀ p, env.saveFails p = false) :
    (∀ e ∈ SIZES,
      (generate_logos env file fs).fs.files (PUBLIC_DIR file ++ [e.1]) =
        some (.encoded "PNG" true (outputImage img0 e.2))) ∧
    (∀ s : Nat, outputImage img0 s = (rgbaOf img0).resize (s, s) .LANCZOS) :=
  ⟨run_output_files env file fs fmt opt img0 hs hsave, fun _ => rfl⟩

theorem c10_outputs_from_source_only_witness :
    (generate_logos envOk fileW fsSrc).fs.files
        ["repo", "public", "logo-128.png"] =
      some (.encoded "PNG" true (outputImage imgW 128)) := by
  exact (c10_outputs_from_source_only envOk fileW fsSrc "PNG" true imgW rfl
    (fun p => rfl)).1 ("logo-128.png", 128) (by decide)

end LogoGen
